import Mathlib

/-!
Verification of the payment-processing flow in
`single_responsability/refactor_code.py`.

The Python code is shallowly embedded: Python values that occur in the
program (strings, integers, booleans, `None`, dictionaries) are modelled by
the inductive type `PyVal`; a dictionary is an association list with the
first binding of a key taking precedence (Python dictionaries have unique
keys, so well-formed inputs never rely on shadowing).  Exceptions are
modelled by `Except PayError`; the spec's `ValidationError` is the source's
`ValueError` and its `PaymentProviderError` is the source's `StripeError`.
Observable side effects (an email dispatch, an SMS dispatch, a line appended
to the log file, a charge-creation request to the provider) are collected in
an explicit `List Event` trace returned next to the `Except` result;
diagnostic `print` calls to stdout are not events, matching the spec's
scoping.  The external provider (`stripe.Charge.create`) is a parameter
`provider : ChargeRequest → Except String Charge`.
-/

/-- Embedded Python values, as used by the program. -/
inductive PyVal where
  | none : PyVal
  | bool (b : Bool) : PyVal
  | int (n : Int) : PyVal
  | str (s : String) : PyVal
  | dict (entries : List (String × PyVal)) : PyVal

/-- A Python dictionary with string keys: the shape of `customer_data`,
`payment_data` and the provider's `Charge`. -/
abbrev Dict := List (String × PyVal)

/-- The provider's `Charge` object: a dictionary (the program reads
`charge["status"]` out of it). -/
abbrev Charge := Dict

/-- Exceptions raised by the program.  `validationError` is Python's
`ValueError` (the spec's `ValidationError`); `paymentProviderError` is
`stripe.error.StripeError` (the spec's `PaymentProviderError`). -/
inductive PayError where
  | validationError (msg : String) : PayError
  | paymentProviderError (detail : String) : PayError
  | keyError (key : String) : PayError
  | typeError (msg : String) : PayError
deriving DecidableEq

/-- First-match lookup in an association list: Python `dict` access. -/
def dictGet : Dict → String → Option PyVal
  | [], _ => Option.none
  | (k, v) :: rest, key => if k = key then some v else dictGet rest key

/-- Python truthiness of a value (`bool(v)`). -/
def truthy : PyVal → Bool
  | .none => false
  | .bool b => b
  | .int n => n != 0
  | .str s => !(s.isEmpty)
  | .dict l => !(l.isEmpty)

/-- Truthiness of `d.get(key)`: a missing key yields `None`, which is falsy. -/
def getTruthy (d : Dict) (key : String) : Bool :=
  match dictGet d key with
  | some v => truthy v
  | Option.none => false

/-- Python subscript `d[key]` on a dictionary: `KeyError` when absent. -/
def dictItem (d : Dict) (key : String) : Except PayError PyVal :=
  match dictGet d key with
  | some v => .ok v
  | Option.none => .error (.keyError key)

/-- Is `needle` an infix of `hay`?  (Python `in` on strings.) -/
def charsInfix (needle : List Char) : List Char → Bool
  | [] => needle.isEmpty
  | c :: rest => needle.isPrefixOf (c :: rest) || charsInfix needle rest

/-- Python `key in v`: key membership for a dictionary, substring test for a
string, `TypeError` for non-container values. -/
def pyContains (v : PyVal) (key : String) : Except PayError Bool :=
  match v with
  | .dict l => .ok ((dictGet l key).isSome)
  | .str s => .ok (charsInfix key.toList s.toList)
  | _ => .error (.typeError "argument is not iterable")

/-- Python subscript `v[key]` on an arbitrary value. -/
def pyItem (v : PyVal) (key : String) : Except PayError PyVal :=
  match v with
  | .dict l => dictItem l key
  | .str _ => .error (.typeError "string indices must be integers")
  | _ => .error (.typeError "object is not subscriptable")

mutual
/-- Python `repr` of a value (string quoting left unescaped: the program
never logs or formats a value that needs escaping). -/
def pyRepr : PyVal → String
  | .none => "None"
  | .bool true => "True"
  | .bool false => "False"
  | .int n => toString n
  | .str s => "'" ++ s ++ "'"
  | .dict l => "\x7b" ++ pyReprEntries l ++ "\x7d"

/-- `repr` of a dictionary's entries, comma-separated. -/
def pyReprEntries : List (String × PyVal) → String
  | [] => ""
  | [(k, v)] => "'" ++ k ++ "': " ++ pyRepr v
  | (k, v) :: rest => "'" ++ k ++ "': " ++ pyRepr v ++ ", " ++ pyReprEntries rest
end

/-- Python `str(v)`, as interpolated by an f-string. -/
def pyStr : PyVal → String
  | .str s => s
  | v => pyRepr v

/-- The keyword arguments the program passes to `stripe.Charge.create`. -/
structure ChargeRequest where
  amount : PyVal
  currency : String
  source : PyVal
  description : String

/-- Observable side effects of one call. -/
inductive Event where
  | emailSent (dest : PyVal) : Event
  | smsSent (phone : PyVal) : Event
  | logLine (path line : String) : Event
  | chargeAttempt (req : ChargeRequest) : Event

namespace CustomerValidator

/-- `CustomerValidator.validate` (refactor_code.py:23-30): rejects a falsy
`name`, then a falsy `contact_info`. -/
def validate (customer_data : Dict) : Except PayError Unit :=
  if !(getTruthy customer_data "name") then
    .error (.validationError "Invalid customer data: missing name")
  else if !(getTruthy customer_data "contact_info") then
    .error (.validationError "Invalid customer data: missing contact info")
  else
    .ok ()

end CustomerValidator

namespace PaymentDataValidator

/-- `PaymentDataValidator.validate` (refactor_code.py:35-38): rejects a
falsy `source`. -/
def validate (payment_data : Dict) : Except PayError Unit :=
  if !(getTruthy payment_data "source") then
    .error (.validationError "Invalid payment data")
  else
    .ok ()

end PaymentDataValidator

namespace Notifier

/-- `Notifier.send_confirmation` (refactor_code.py:44-64): reads
`customer_data["contact_info"]` unguarded, then picks the channel by `in`
membership, email before phone; the dispatch itself is the recorded event. -/
def send_confirmation (customer_data : Dict) :
    List Event × Except PayError Unit :=
  match dictItem customer_data "contact_info" with
  | .error e => ([], .error e)
  | .ok ci =>
    match pyContains ci "email" with
    | .error e => ([], .error e)
    | .ok true =>
      match pyItem ci "email" with
      | .error e => ([], .error e)
      | .ok addr => ([.emailSent addr], .ok ())
    | .ok false =>
      match pyContains ci "phone" with
      | .error e => ([], .error e)
      | .ok true =>
        match pyItem ci "phone" with
        | .error e => ([], .error e)
        | .ok ph => ([.smsSent ph], .ok ())
      | .ok false => ([], .ok ())

end Notifier

namespace TransactionLogger

/-- The path hardcoded at refactor_code.py:72. -/
def logPath : String := "transactions.log"

/-- `TransactionLogger.log` (refactor_code.py:70-74): appends the two
f-string lines to `transactions.log`; each subscript can raise `KeyError`,
and the first line is already written when the second one's subscript
fails. -/
def log (customer_data payment_data : Dict) (charge : Charge) :
    List Event × Except PayError Unit :=
  match dictItem customer_data "name" with
  | .error e => ([], .error e)
  | .ok n =>
    match dictItem payment_data "amount" with
    | .error e => ([], .error e)
    | .ok a =>
      let line1 := Event.logLine logPath (pyStr n ++ " paid " ++ pyStr a)
      match dictItem charge "status" with
      | .error e => ([line1], .error e)
      | .ok s =>
        ([line1, Event.logLine logPath ("Payment status: " ++ pyStr s)],
         .ok ())

end TransactionLogger

namespace StripePaymentProcessor

/-- `StripePaymentProcessor.process_transaction` (refactor_code.py:79-94):
evaluates the keyword arguments left to right (`payment_data["amount"]`,
the literal `"usd"`, `payment_data["source"]`,
`"Charge for " + customer_data["name"]` — string concatenation requires the
name to be a string), issues exactly one charge-creation request, re-raises
a provider failure as the provider's error, and returns the provider's
charge unchanged. -/
def process_transaction (provider : ChargeRequest → Except String Charge)
    (customer_data payment_data : Dict) :
    List Event × Except PayError Charge :=
  match dictItem payment_data "amount" with
  | .error e => ([], .error e)
  | .ok a =>
    match dictItem payment_data "source" with
    | .error e => ([], .error e)
    | .ok src =>
      match dictItem customer_data "name" with
      | .error e => ([], .error e)
      | .ok nv =>
        match nv with
        | .str n =>
          let req : ChargeRequest :=
            ⟨a, "usd", src, "Charge for " ++ n⟩
          match provider req with
          | .error e =>
            ([.chargeAttempt req], .error (.paymentProviderError e))
          | .ok charge => ([.chargeAttempt req], .ok charge)
        | _ => ([], .error (.typeError "can only concatenate str to str"))

end StripePaymentProcessor

namespace PaymentService

/-- `PaymentService.process_transaction` (refactor_code.py:107-126): the
fixed sequence validate customer → validate payment → charge → notify →
log, each `try/except ... raise e` block re-raising the caught error
unchanged; events of completed steps persist when a later step fails. -/
def process_transaction (provider : ChargeRequest → Except String Charge)
    (customer_data payment_data : Dict) :
    List Event × Except PayError Charge :=
  match CustomerValidator.validate customer_data with
  | .error e => ([], .error e)
  | .ok _ =>
    match PaymentDataValidator.validate payment_data with
    | .error e => ([], .error e)
    | .ok _ =>
      match StripePaymentProcessor.process_transaction provider
          customer_data payment_data with
      | (ev1, .error e) => (ev1, .error e)
      | (ev1, .ok charge) =>
        match Notifier.send_confirmation customer_data with
        | (ev2, .error e) => (ev1 ++ ev2, .error e)
        | (ev2, .ok _) =>
          match TransactionLogger.log customer_data payment_data charge with
          | (ev3, .error e) => (ev1 ++ ev2 ++ ev3, .error e)
          | (ev3, .ok _) => (ev1 ++ ev2 ++ ev3, .ok charge)

end PaymentService

/-- An event that is a log append or a notification dispatch (as opposed to
a charge-creation request). -/
def Event.isOutput : Event → Bool
  | .emailSent _ => true
  | .smsSent _ => true
  | .logLine _ _ => true
  | .chargeAttempt _ => false

/-- An event that is a log append. -/
def Event.isLog : Event → Bool
  | .logLine _ _ => true
  | _ => false

/-! ## Concrete inputs used by the witness theorems -/

/-- Scenario A customer: name and an email contact. -/
def exCdEmail : Dict :=
  [("name", .str "John Doe"), ("contact_info", .dict [("email", .str "e@mail.com")])]

/-- Scenario B customer: name and a phone contact. -/
def exCdPhone : Dict :=
  [("name", .str "Platzi Python"), ("contact_info", .dict [("phone", .str "1234567890")])]

/-- The demonstration script's payment data. -/
def exPd : Dict :=
  [("amount", .int 500), ("source", .str "tok_mastercard"), ("cvv", .int 123)]

/-- Scenario C payment data, which the provider rejects. -/
def exPdBlock : Dict :=
  [("amount", .int 700), ("source", .str "tok_radarBlock"), ("cvv", .int 123)]

/-- A provider that accepts every request and reports a succeeded charge. -/
def exProvOk : ChargeRequest → Except String Charge :=
  fun req => .ok [("status", .str "succeeded"), ("amount", req.amount)]

/-- A provider that rejects every request. -/
def exProvDecline : ChargeRequest → Except String Charge :=
  fun _ => .error "Your card was declined."

/-! ## C3 -/

/-- C3: `CustomerValidator.validate` fails with the missing-name
`ValidationError` when `name` is absent or empty (falsy), fails with the
missing-contact-info `ValidationError` when `name` passes but
`contact_info` is absent or empty, and returns normally when both are
present and non-empty. -/
theorem customer_validate_cases (customer_data : Dict) :
    (getTruthy customer_data "name" = false →
      CustomerValidator.validate customer_data =
        .error (.validationError "Invalid customer data: missing name")) ∧
    (getTruthy customer_data "name" = true →
     getTruthy customer_data "contact_info" = false →
      CustomerValidator.validate customer_data =
        .error (.validationError "Invalid customer data: missing contact info")) ∧
    (getTruthy customer_data "name" = true →
     getTruthy customer_data "contact_info" = true →
      CustomerValidator.validate customer_data = .ok ()) := by
  refine ⟨fun h1 => ?_, fun h1 h2 => ?_, fun h1 h2 => ?_⟩
  · simp [CustomerValidator.validate, h1]
  · simp [CustomerValidator.validate, h1, h2]
  · simp [CustomerValidator.validate, h1, h2]

/-- Witness for C3 at concrete inputs: a customer with an empty name is
rejected for the name, one with a name but no contact info is rejected for
the contact info, and the scenario A customer passes. -/
theorem customer_validate_cases_witness :
    CustomerValidator.validate [("name", .str "")] =
      .error (.validationError "Invalid customer data: missing name") ∧
    CustomerValidator.validate [("name", .str "John Doe")] =
      .error (.validationError "Invalid customer data: missing contact info") ∧
    CustomerValidator.validate exCdEmail = .ok () :=
  ⟨(customer_validate_cases [("name", .str "")]).1 rfl,
   (customer_validate_cases [("name", .str "John Doe")]).2.1 rfl rfl,
   (customer_validate_cases exCdEmail).2.2 rfl rfl⟩

/-! ## C4 -/

/-- C4: `PaymentDataValidator.validate` fails with
`ValidationError("Invalid payment data")` exactly when `source` is absent
or empty (falsy) and returns normally otherwise; the `amount` field never
influences the outcome: overriding `amount` with any value whatsoever
leaves the result unchanged. -/
theorem payment_validate_source_only (payment_data : Dict) :
    (getTruthy payment_data "source" = false →
      PaymentDataValidator.validate payment_data =
        .error (.validationError "Invalid payment data")) ∧
    (getTruthy payment_data "source" = true →
      PaymentDataValidator.validate payment_data = .ok ()) ∧
    (∀ a : PyVal,
      PaymentDataValidator.validate (("amount", a) :: payment_data) =
        PaymentDataValidator.validate payment_data) := by
  refine ⟨fun h1 => ?_, fun h1 => ?_, fun a => ?_⟩
  · simp [PaymentDataValidator.validate, h1]
  · simp [PaymentDataValidator.validate, h1]
  · have hne : ("amount" : String) ≠ "source" := by decide
    simp [PaymentDataValidator.validate, getTruthy, dictGet, hne]

/-- Witness for C4 at concrete inputs: empty source is rejected, the
scenario payment data passes, and replacing its amount by `None` changes
nothing. -/
theorem payment_validate_source_only_witness :
    PaymentDataValidator.validate [("amount", .int 500), ("source", .str "")] =
      .error (.validationError "Invalid payment data") ∧
    PaymentDataValidator.validate exPd = .ok () ∧
    PaymentDataValidator.validate (("amount", .none) :: exPd) =
      PaymentDataValidator.validate exPd :=
  ⟨(payment_validate_source_only [("amount", .int 500), ("source", .str "")]).1 rfl,
   (payment_validate_source_only exPd).2.1 rfl,
   (payment_validate_source_only exPd).2.2 .none⟩

/-! ## C5 -/

/-- C5: given a `contact_info` dictionary, `Notifier.send_confirmation`
uses exactly one channel, chosen by key presence with email first: an
`email` entry yields exactly one email dispatch and no SMS; a `phone` entry
without an `email` one yields exactly one SMS and no email; neither entry
yields no dispatch and no error. -/
theorem notifier_one_channel (customer_data : Dict)
    (ci : List (String × PyVal))
    (hci : dictGet customer_data "contact_info" = some (.dict ci)) :
    (∀ v, dictGet ci "email" = some v →
      Notifier.send_confirmation customer_data = ([.emailSent v], .ok ())) ∧
    (dictGet ci "email" = Option.none →
     ∀ v, dictGet ci "phone" = some v →
      Notifier.send_confirmation customer_data = ([.smsSent v], .ok ())) ∧
    (dictGet ci "email" = Option.none → dictGet ci "phone" = Option.none →
      Notifier.send_confirmation customer_data = ([], .ok ())) := by
  refine ⟨fun v hv => ?_, fun he v hv => ?_, fun he hp => ?_⟩
  · simp [Notifier.send_confirmation, dictItem, pyContains, pyItem, hci, hv]
  · simp [Notifier.send_confirmation, dictItem, pyContains, pyItem, hci,
      he, hv]
  · simp [Notifier.send_confirmation, dictItem, pyContains, pyItem, hci,
      he, hp]

/-- Witness for C5 at concrete inputs: the scenario A customer gets exactly
one email, the scenario B customer exactly one SMS, and a customer with an
empty contact dictionary gets nothing and no error. -/
theorem notifier_one_channel_witness :
    Notifier.send_confirmation exCdEmail =
      ([.emailSent (.str "e@mail.com")], .ok ()) ∧
    Notifier.send_confirmation exCdPhone =
      ([.smsSent (.str "1234567890")], .ok ()) ∧
    Notifier.send_confirmation [("name", .str "N"), ("contact_info", .dict [])] =
      ([], .ok ()) :=
  ⟨(notifier_one_channel exCdEmail [("email", .str "e@mail.com")] rfl).1
      (.str "e@mail.com") rfl,
   (notifier_one_channel exCdPhone [("phone", .str "1234567890")] rfl).2.1
      rfl (.str "1234567890") rfl,
   (notifier_one_channel [("name", .str "N"), ("contact_info", .dict [])] []
      rfl).2.2 rfl rfl⟩

/-! ## C6 -/

/-- C6: when `name`, `amount` and `status` are present,
`TransactionLogger.log` appends exactly two lines to the store, in order:
`"{name} paid {amount}"` then `"Payment status: {status}"`, and nothing
else. -/
theorem logger_appends_two_lines (customer_data payment_data : Dict)
    (charge : Charge) (n a s : PyVal)
    (hn : dictGet customer_data "name" = some n)
    (ha : dictGet payment_data "amount" = some a)
    (hs : dictGet charge "status" = some s) :
    TransactionLogger.log customer_data payment_data charge =
      ([.logLine TransactionLogger.logPath (pyStr n ++ " paid " ++ pyStr a),
        .logLine TransactionLogger.logPath ("Payment status: " ++ pyStr s)],
       .ok ()) := by
  simp [TransactionLogger.log, dictItem, hn, ha, hs]

/-- Witness for C6: the spec's concrete example — John Doe, amount 500,
status "succeeded" — produces exactly the two expected lines. -/
theorem logger_appends_two_lines_witness :
    TransactionLogger.log exCdEmail exPd [("status", .str "succeeded")] =
      ([.logLine TransactionLogger.logPath "John Doe paid 500",
        .logLine TransactionLogger.logPath "Payment status: succeeded"],
       .ok ()) :=
  logger_appends_two_lines exCdEmail exPd [("status", .str "succeeded")]
    (.str "John Doe") (.int 500) (.str "succeeded") rfl rfl rfl

/-! ## C7 -/

/-- C7: with `name`, `amount` and `source` readable,
`StripePaymentProcessor.process_transaction` issues exactly one
charge-creation request carrying the given amount, the fixed currency
`"usd"`, the given source token, and the description
`"Charge for " ++ name`; on provider failure it fails with
`PaymentProviderError` carrying the provider's detail (no second attempt in
the trace), and on success it returns the provider's charge unchanged. -/
theorem processor_charge_contract
    (provider : ChargeRequest → Except String Charge)
    (customer_data payment_data : Dict) (n : String) (a src : PyVal)
    (hn : dictGet customer_data "name" = some (.str n))
    (ha : dictGet payment_data "amount" = some a)
    (hsrc : dictGet payment_data "source" = some src) :
    (∀ e, provider ⟨a, "usd", src, "Charge for " ++ n⟩ = .error e →
      StripePaymentProcessor.process_transaction provider customer_data
          payment_data =
        ([.chargeAttempt ⟨a, "usd", src, "Charge for " ++ n⟩],
         .error (.paymentProviderError e))) ∧
    (∀ ch, provider ⟨a, "usd", src, "Charge for " ++ n⟩ = .ok ch →
      StripePaymentProcessor.process_transaction provider customer_data
          payment_data =
        ([.chargeAttempt ⟨a, "usd", src, "Charge for " ++ n⟩], .ok ch)) := by
  refine ⟨fun e hp => ?_, fun ch hp => ?_⟩ <;>
    simp [StripePaymentProcessor.process_transaction, dictItem, hn, ha,
      hsrc, hp]

/-- Witness for C7: the declining provider on scenario C data yields one
attempt and a `PaymentProviderError` with the provider's detail; the
accepting provider on scenario A data returns its charge unchanged. -/
theorem processor_charge_contract_witness :
    StripePaymentProcessor.process_transaction exProvDecline exCdEmail
        exPdBlock =
      ([.chargeAttempt ⟨.int 700, "usd", .str "tok_radarBlock",
          "Charge for John Doe"⟩],
       .error (.paymentProviderError "Your card was declined.")) ∧
    StripePaymentProcessor.process_transaction exProvOk exCdEmail exPd =
      ([.chargeAttempt ⟨.int 500, "usd", .str "tok_mastercard",
          "Charge for John Doe"⟩],
       .ok [("status", .str "succeeded"), ("amount", .int 500)]) :=
  ⟨(processor_charge_contract exProvDecline exCdEmail exPdBlock "John Doe"
      (.int 700) (.str "tok_radarBlock") rfl rfl rfl).1
      "Your card was declined." rfl,
   (processor_charge_contract exProvOk exCdEmail exPd "John Doe"
      (.int 500) (.str "tok_mastercard") rfl rfl rfl).2
      [("status", .str "succeeded"), ("amount", .int 500)] rfl⟩

/-! ## C9 -/

/-- C9: channel selection is by key presence, not value truthiness: any
`contact_info` dictionary with an `email` entry routes to email with that
entry's value, whatever it is, and sends no SMS; in particular a customer
with `contact_info = {email: "", phone: p}` passes `CustomerValidator` and
is emailed at the empty address while the phone is ignored. -/
theorem notifier_email_key_priority (customer_data : Dict)
    (ci : List (String × PyVal)) (v : PyVal)
    (hci : dictGet customer_data "contact_info" = some (.dict ci))
    (hv : dictGet ci "email" = some v) :
    Notifier.send_confirmation customer_data = ([.emailSent v], .ok ()) ∧
    (∀ n p : String, n ≠ "" →
      CustomerValidator.validate
          [("name", .str n),
           ("contact_info",
            .dict [("email", .str ""), ("phone", .str p)])] = .ok () ∧
      Notifier.send_confirmation
          [("name", .str n),
           ("contact_info",
            .dict [("email", .str ""), ("phone", .str p)])] =
        ([.emailSent (.str "")], .ok ())) := by
  refine ⟨?_, fun n p hn => ⟨?_, ?_⟩⟩
  · simp [Notifier.send_confirmation, dictItem, pyContains, pyItem, hci, hv]
  · simp [CustomerValidator.validate, getTruthy, dictGet, truthy,
      String.isEmpty_iff, hn]
  · simp [Notifier.send_confirmation, dictItem, dictGet, pyContains, pyItem]

/-- Witness for C9: with `contact_info = {email: "", phone: "1234567890"}`
and name "John Doe", validation passes and exactly one email to the empty
address is dispatched, no SMS. -/
theorem notifier_email_key_priority_witness :
    Notifier.send_confirmation
        [("name", .str "John Doe"),
         ("contact_info",
          .dict [("email", .str ""), ("phone", .str "1234567890")])] =
      ([.emailSent (.str "")], .ok ()) ∧
    CustomerValidator.validate
        [("name", .str "John Doe"),
         ("contact_info",
          .dict [("email", .str ""), ("phone", .str "1234567890")])] =
      .ok () :=
  ⟨(notifier_email_key_priority
      [("name", .str "John Doe"),
       ("contact_info",
        .dict [("email", .str ""), ("phone", .str "1234567890")])]
      [("email", .str ""), ("phone", .str "1234567890")] (.str "")
      rfl rfl).1,
   ((notifier_email_key_priority
      [("name", .str "John Doe"),
       ("contact_info",
        .dict [("email", .str ""), ("phone", .str "1234567890")])]
      [("email", .str ""), ("phone", .str "1234567890")] (.str "")
      rfl rfl).2 "John Doe" "1234567890" (by decide)).1⟩

/-! ## C10 -/

/-- C10: `Notifier.send_confirmation` indexes `contact_info` without a
guard, so a customer lacking that key raises `KeyError("contact_info")`
instead of the documented silent no-op; inside
`PaymentService.process_transaction` this branch is unreachable: on such
input the service stops at customer validation with a `ValidationError`
(for the contact info, or for the name when that is also falsy), and no
events are produced. -/
theorem notifier_contact_keyerror_unreachable (customer_data : Dict)
    (h : dictGet customer_data "contact_info" = Option.none) :
    Notifier.send_confirmation customer_data =
      ([], .error (.keyError "contact_info")) ∧
    (∀ (provider : ChargeRequest → Except String Charge)
       (payment_data : Dict),
      PaymentService.process_transaction provider customer_data
          payment_data =
        ([], .error
          (.validationError "Invalid customer data: missing contact info")) ∨
      PaymentService.process_transaction provider customer_data
          payment_data =
        ([], .error
          (.validationError "Invalid customer data: missing name"))) := by
  refine ⟨by simp [Notifier.send_confirmation, dictItem, h],
    fun provider payment_data => ?_⟩
  cases hn : getTruthy customer_data "name" with
  | false =>
    right
    simp [PaymentService.process_transaction, CustomerValidator.validate, hn]
  | true =>
    left
    have hc : getTruthy customer_data "contact_info" = false := by
      simp [getTruthy, h]
    simp [PaymentService.process_transaction, CustomerValidator.validate,
      hn, hc]

/-- Witness for C10: a named customer with no `contact_info` key makes the
notifier raise `KeyError`, while the full service rejects the same customer
at validation with no events. -/
theorem notifier_contact_keyerror_unreachable_witness :
    Notifier.send_confirmation [("name", .str "John Doe")] =
      ([], .error (.keyError "contact_info")) ∧
    (PaymentService.process_transaction exProvOk [("name", .str "John Doe")]
        exPd =
      ([], .error
        (.validationError "Invalid customer data: missing contact info")) ∨
     PaymentService.process_transaction exProvOk [("name", .str "John Doe")]
        exPd =
      ([], .error
        (.validationError "Invalid customer data: missing name"))) :=
  ⟨(notifier_contact_keyerror_unreachable [("name", .str "John Doe")] rfl).1,
   (notifier_contact_keyerror_unreachable [("name", .str "John Doe")]
      rfl).2 exProvOk exPd⟩

/-! ## Trace-shape helper lemmas -/

/-- The processor's trace holds only charge-creation requests: it never
contains a dispatch or a log append. -/
theorem processor_events_filter
    (provider : ChargeRequest → Except String Charge)
    (customer_data payment_data : Dict) :
    ((StripePaymentProcessor.process_transaction provider customer_data
        payment_data).1).filter Event.isOutput = [] ∧
    ((StripePaymentProcessor.process_transaction provider customer_data
        payment_data).1).filter Event.isLog = [] := by
  unfold StripePaymentProcessor.process_transaction
  repeat' split
  all_goals try exact ⟨rfl, rfl⟩
  all_goals (dsimp only; split <;> exact ⟨rfl, rfl⟩)

/-- The notifier's trace never contains a log append. -/
theorem notifier_events_no_log (customer_data : Dict) :
    ((Notifier.send_confirmation customer_data).1).filter Event.isLog
      = [] := by
  unfold Notifier.send_confirmation
  repeat' split
  all_goals rfl

/-- Every event the logger emits is a line appended to the hardcoded
path. -/
theorem log_events_fixed_path (customer_data payment_data : Dict)
    (charge : Charge) :
    ∀ e ∈ (TransactionLogger.log customer_data payment_data charge).1,
      ∃ l, e = Event.logLine TransactionLogger.logPath l := by
  intro e he
  unfold TransactionLogger.log at he
  cases hn : dictItem customer_data "name" with
  | error err => rw [hn] at he; simp at he
  | ok n =>
    rw [hn] at he
    cases ha : dictItem payment_data "amount" with
    | error err => rw [ha] at he; simp at he
    | ok a =>
      rw [ha] at he
      cases hs : dictItem charge "status" with
      | error err =>
        rw [hs] at he; simp at he; exact ⟨_, he⟩
      | ok s =>
        rw [hs] at he; simp at he
        rcases he with rfl | rfl
        · exact ⟨_, rfl⟩
        · exact ⟨_, rfl⟩

/-! ## C1 -/

/-- C1: if customer validation, payment validation or the charge step
fails, the service's trace holds no log append and no notification
dispatch — output is produced only once a charge was successfully
obtained. -/
theorem service_no_output_without_charge
    (provider : ChargeRequest → Except String Charge)
    (customer_data payment_data : Dict)
    (h : (∃ e, CustomerValidator.validate customer_data = .error e) ∨
         (∃ e, PaymentDataValidator.validate payment_data = .error e) ∨
         (∃ e, (StripePaymentProcessor.process_transaction provider
                  customer_data payment_data).2 = .error e)) :
    ((PaymentService.process_transaction provider customer_data
        payment_data).1).filter Event.isOutput = [] := by
  unfold PaymentService.process_transaction
  cases hv1 : CustomerValidator.validate customer_data with
  | error e => simp
  | ok u =>
    cases hv2 : PaymentDataValidator.validate payment_data with
    | error e => simp
    | ok u2 =>
      rcases hp : StripePaymentProcessor.process_transaction provider
          customer_data payment_data with ⟨ev1, r⟩
      cases r with
      | error e =>
        have hf := (processor_events_filter provider customer_data
          payment_data).1
        rw [hp] at hf
        simpa using hf
      | ok ch =>
        rcases h with ⟨e, he⟩ | ⟨e, he⟩ | ⟨e, he⟩
        · rw [hv1] at he; cases he
        · rw [hv2] at he; cases he
        · rw [hp] at he; cases he

/-- Witness for C1: scenario C (provider rejects the token) leaves a trace
with no dispatch and no log append. -/
theorem service_no_output_without_charge_witness :
    ((PaymentService.process_transaction exProvDecline exCdEmail
        exPdBlock).1).filter Event.isOutput = [] :=
  service_no_output_without_charge exProvDecline exCdEmail exPdBlock
    (Or.inr (Or.inr
      ⟨.paymentProviderError "Your card was declined.", rfl⟩))

/-! ## C2 -/

/-- A customer whose `contact_info` is a (truthy) integer: it passes
`CustomerValidator` but makes the notifier's `in` test raise `TypeError`,
exercising the notify-aborts-before-logging path. -/
def exCdIntContact : Dict := [("name", .str "Ann"), ("contact_info", .int 5)]

/-- C2: the service runs exactly validate-customer, validate-payment,
charge, notify, log; the first failing step's error is propagated with no
later step run (a notifier failure aborts before any line is logged), and
when every step succeeds the service returns the charge produced by the
charge step, with the steps' traces concatenated in order. -/
theorem service_fixed_sequence
    (provider : ChargeRequest → Except String Charge)
    (customer_data payment_data : Dict) :
    (∀ e, CustomerValidator.validate customer_data = .error e →
      PaymentService.process_transaction provider customer_data
        payment_data = ([], .error e)) ∧
    (CustomerValidator.validate customer_data = .ok () →
     ∀ e, PaymentDataValidator.validate payment_data = .error e →
      PaymentService.process_transaction provider customer_data
        payment_data = ([], .error e)) ∧
    (CustomerValidator.validate customer_data = .ok () →
     PaymentDataValidator.validate payment_data = .ok () →
     ∀ ev1 e,
      StripePaymentProcessor.process_transaction provider customer_data
          payment_data = (ev1, .error e) →
      PaymentService.process_transaction provider customer_data
          payment_data = (ev1, .error e) ∧
      ev1.filter Event.isOutput = []) ∧
    (CustomerValidator.validate customer_data = .ok () →
     PaymentDataValidator.validate payment_data = .ok () →
     ∀ ev1 ch ev2 e,
      StripePaymentProcessor.process_transaction provider customer_data
          payment_data = (ev1, .ok ch) →
      Notifier.send_confirmation customer_data = (ev2, .error e) →
      PaymentService.process_transaction provider customer_data
          payment_data = (ev1 ++ ev2, .error e) ∧
      (ev1 ++ ev2).filter Event.isLog = []) ∧
    (CustomerValidator.validate customer_data = .ok () →
     PaymentDataValidator.validate payment_data = .ok () →
     ∀ ev1 ch ev2 ev3 e,
      StripePaymentProcessor.process_transaction provider customer_data
          payment_data = (ev1, .ok ch) →
      Notifier.send_confirmation customer_data = (ev2, .ok ()) →
      TransactionLogger.log customer_data payment_data ch = (ev3, .error e) →
      PaymentService.process_transaction provider customer_data
          payment_data = (ev1 ++ ev2 ++ ev3, .error e)) ∧
    (CustomerValidator.validate customer_data = .ok () →
     PaymentDataValidator.validate payment_data = .ok () →
     ∀ ev1 ch ev2 ev3,
      StripePaymentProcessor.process_transaction provider customer_data
          payment_data = (ev1, .ok ch) →
      Notifier.send_confirmation customer_data = (ev2, .ok ()) →
      TransactionLogger.log customer_data payment_data ch = (ev3, .ok ()) →
      PaymentService.process_transaction provider customer_data
          payment_data = (ev1 ++ ev2 ++ ev3, .ok ch)) := by
  refine ⟨fun e h1 => ?_, fun h1 e h2 => ?_, fun h1 h2 ev1 e hp => ⟨?_, ?_⟩,
    fun h1 h2 ev1 ch ev2 e hp hn => ⟨?_, ?_⟩,
    fun h1 h2 ev1 ch ev2 ev3 e hp hn hl => ?_,
    fun h1 h2 ev1 ch ev2 ev3 hp hn hl => ?_⟩
  · simp [PaymentService.process_transaction, h1]
  · simp [PaymentService.process_transaction, h1, h2]
  · simp [PaymentService.process_transaction, h1, h2, hp]
  · have hf := (processor_events_filter provider customer_data
      payment_data).1
    rw [hp] at hf
    simpa using hf
  · simp [PaymentService.process_transaction, h1, h2, hp, hn]
  · have hf1 := (processor_events_filter provider customer_data
      payment_data).2
    have hf2 := notifier_events_no_log customer_data
    rw [hp] at hf1
    rw [hn] at hf2
    simp only [List.filter_append]
    simp only at hf1 hf2
    rw [hf1, hf2]
    simp
  · simp [PaymentService.process_transaction, h1, h2, hp, hn, hl]
  · simp [PaymentService.process_transaction, h1, h2, hp, hn, hl]

/-- Witness for C2, exercising the notifier-abort conjunct: with an
accepting provider and `contact_info = 5`, the charge succeeds, the
notifier raises `TypeError`, and the service stops there with the charge
attempt as its only trace — no log line. -/
theorem service_fixed_sequence_witness :
    PaymentService.process_transaction exProvOk exCdIntContact exPd =
      ([Event.chargeAttempt
          ⟨.int 500, "usd", .str "tok_mastercard", "Charge for Ann"⟩] ++ [],
       .error (.typeError "argument is not iterable")) ∧
    (([Event.chargeAttempt
        ⟨.int 500, "usd", .str "tok_mastercard", "Charge for Ann"⟩] ++ [])
      : List Event).filter Event.isLog = [] :=
  (service_fixed_sequence exProvOk exCdIntContact exPd).2.2.2.1 rfl rfl
    [Event.chargeAttempt
      ⟨.int 500, "usd", .str "tok_mastercard", "Charge for Ann"⟩]
    [("status", .str "succeeded"), ("amount", .int 500)] []
    (.typeError "argument is not iterable") rfl rfl

/-! ## C8 -/

/-- Counterexample to C8 as stated: the log path is not chosen by the
caller — no combination of caller inputs makes `TransactionLogger.log`
write a line to any path other than the literal `"transactions.log"`
hardcoded at refactor_code.py:72. -/
theorem log_path_not_caller_chosen :
    ¬ ∃ (customer_data payment_data : Dict) (charge : Charge)
        (p l : String),
        Event.logLine p l ∈
          (TransactionLogger.log customer_data payment_data charge).1 ∧
        p ≠ "transactions.log" := by
  rintro ⟨cd, pd, ch, p, l, hmem, hne⟩
  obtain ⟨l2, hl⟩ := log_events_fixed_path cd pd ch _ hmem
  rw [Event.logLine.injEq] at hl
  exact hne hl.1

/-- C8 amended: the transaction log is persisted to one append-only text
file at the fixed, hardcoded path `"transactions.log"` — the single target
of every event any call to `TransactionLogger.log` emits. -/
theorem log_single_fixed_path (customer_data payment_data : Dict)
    (charge : Charge) (e : Event)
    (he : e ∈ (TransactionLogger.log customer_data payment_data charge).1) :
    ∃ l, e = Event.logLine "transactions.log" l :=
  log_events_fixed_path customer_data payment_data charge e he

/-- Witness for the amended C8: the first line written for the spec's
concrete scenario targets `"transactions.log"`. -/
theorem log_single_fixed_path_witness :
    ∃ l, Event.logLine TransactionLogger.logPath "John Doe paid 500" =
      Event.logLine "transactions.log" l :=
  log_single_fixed_path exCdEmail exPd [("status", .str "succeeded")]
    (Event.logLine TransactionLogger.logPath "John Doe paid 500")
    (List.Mem.head _)
